import Mathlib

/-!
Verification of the Smart Voice Translator pipeline (`src/app.py`).

The Flask app orchestrates four stages per request: speech recognition
(faster-whisper), language-name resolution, translation (deep-translator)
with a `source="auto"` fallback, and speech synthesis (edge-tts).  The
external ML/network engines are opaque collaborators; we model them as an
`Adapters` record of pure functions supplied to the pipeline, a fallible
call returning `Except String`.  The two fixed on-disk artifact slots
(`record_videos/record.wav` and `speaking_video/output.mp3`) are a
`Storage` record of `Option String` slots (`some bytes` = the file exists
with these contents, `none` = absent).  Every adapter invocation is
recorded in a trace of `AdapterCall`s so that claims about which adapters
run can be stated.

Python string builtins (`str.strip`, `str.upper`, `str.join`, `dict.get`)
are embedded as structurally recursive functions over `List Char` / lists
so that every definition evaluates inside the kernel.  The float
expression `round(info.language_probability * 100, 1)` is modelled
exactly over `ℚ`, with Python's banker's rounding (round half to even)
made explicit as integer arithmetic on numerator and denominator.
-/

set_option autoImplicit false

deriving instance DecidableEq for Except

namespace VoiceTranslator

/-- Embedding of Python's ASCII whitespace test used by `str.strip()`:
space, tab, newline, carriage return, vertical tab, form feed. -/
def pyIsSpace (c : Char) : Bool :=
  c == ' ' || c == '\t' || c == '\n' || c == '\r' || c == '\x0b' || c == '\x0c'

/-- Embedding of Python's `str.strip()` (no argument): drop whitespace
from both ends of the string. -/
def pyStrip (s : String) : String :=
  ⟨((s.data.dropWhile pyIsSpace).reverse.dropWhile pyIsSpace).reverse⟩

/-- Embedding of Python's `str.upper()` on one character, restricted to
ASCII (the only case exercised by ISO-639 language codes). -/
def pyUpperChar (c : Char) : Char :=
  if 97 ≤ c.toNat ∧ c.toNat ≤ 122 then Char.ofNat (c.toNat - 32) else c

/-- Embedding of Python's `str.upper()`. -/
def pyUpper (s : String) : String := ⟨s.data.map pyUpperChar⟩

/-- Embedding of Python's `sep.join(items)`. -/
def pyJoin (sep : String) : List String → String
  | [] => ""
  | [s] => s
  | s :: rest => s ++ sep ++ pyJoin sep rest

/-- Embedding of a Python `dict` literal lookup (`d[k]` / the hit case of
`d.get`): the table is a key-value list with distinct keys, searched in
order. -/
def dictLookup : List (String × String) → String → Option String
  | [], _ => none
  | (k, v) :: rest, key => if k = key then some v else dictLookup rest key

/-- Output of the opaque Whisper model for one transcription:
`model.transcribe` yields a sequence of segment texts plus the detected
language and its probability (`info.language`,
`info.language_probability`, a value in `[0, 1]`). -/
structure TranscribeOut where
  segments : List String
  language : String
  language_probability : ℚ
deriving DecidableEq

/-- Round half to even (banker's rounding, Python's `round` tie rule) of
the fraction `n / d` with `d > 0`, using only integer arithmetic:
`f = ⌊n/d⌋` and `r2 = 2·d·fract(n/d)` decide the branch. -/
def roundHalfEvenFrac (n d : ℤ) : ℤ :=
  let f := n / d
  let r2 := 2 * (n - f * d)
  if r2 < d then f
  else if d < r2 then f + 1
  else if f % 2 = 0 then f else f + 1

/-- Embedding of Python's `round(x, 1)` on an exact rational: round
`x * 10` half to even, divide back by 10.  `x * 10` as an unreduced
fraction is `x.num * 10 / x.den`. -/
def pyRound1 (x : ℚ) : ℚ := (roundHalfEvenFrac (x.num * 10) x.den : ℚ) / 10

/-- `speech_to_text` (src/app.py lines 82-87), given the opaque model's
output: `full_text = " ".join(segment.text for segment in segments)`,
`confidence = round(info.language_probability * 100, 1)`, returning
`(full_text.strip(), detected_lang, confidence)`. -/
def speech_to_text (o : TranscribeOut) : String × String × ℚ :=
  let full_text := pyJoin " " o.segments
  let detected_lang := o.language
  let confidence := pyRound1 (o.language_probability * 100)
  (pyStrip full_text, detected_lang, confidence)

/-- `LANGUAGE_NAMES` (src/app.py lines 31-40): language code to display name. -/
def LANGUAGE_NAMES : List (String × String) :=
  [("en", "English"), ("hi", "Hindi"), ("te", "Telugu"), ("ta", "Tamil"),
   ("kn", "Kannada"), ("ml", "Malayalam"), ("mr", "Marathi"), ("bn", "Bengali"),
   ("gu", "Gujarati"), ("pa", "Punjabi"), ("ur", "Urdu"), ("or", "Odia"),
   ("as", "Assamese"), ("ja", "Japanese"), ("zh", "Chinese"), ("ko", "Korean"),
   ("fr", "French"), ("de", "German"), ("es", "Spanish"), ("it", "Italian"),
   ("pt", "Portuguese"), ("ru", "Russian"), ("ar", "Arabic"), ("tr", "Turkish"),
   ("nl", "Dutch"), ("pl", "Polish"), ("sv", "Swedish"), ("fi", "Finnish"),
   ("id", "Indonesian"), ("vi", "Vietnamese"), ("th", "Thai")]

/-- `VOICE_MAP` (src/app.py lines 45-77): language code to Edge TTS voice. -/
def VOICE_MAP : List (String × String) :=
  [("en", "en-US-AriaNeural"),
   ("hi", "hi-IN-SwaraNeural"),
   ("te", "te-IN-ShrutiNeural"),
   ("ta", "ta-IN-PallaviNeural"),
   ("kn", "kn-IN-SapnaNeural"),
   ("ml", "ml-IN-SobhanaNeural"),
   ("mr", "mr-IN-AarohiNeural"),
   ("bn", "bn-IN-TanishaaNeural"),
   ("gu", "gu-IN-DhwaniNeural"),
   ("pa", "pa-IN-OjasNeural"),
   ("ur", "ur-PK-UzmaNeural"),
   ("or", "or-IN-SubhasiniNeural"),
   ("as", "as-IN-YashicaNeural"),
   ("ja", "ja-JP-NanamiNeural"),
   ("zh", "zh-CN-XiaoxiaoNeural"),
   ("ko", "ko-KR-SunHiNeural"),
   ("fr", "fr-FR-DeniseNeural"),
   ("de", "de-DE-KatjaNeural"),
   ("es", "es-ES-ElviraNeural"),
   ("it", "it-IT-ElsaNeural"),
   ("pt", "pt-BR-FranciscaNeural"),
   ("ru", "ru-RU-SvetlanaNeural"),
   ("ar", "ar-EG-SalmaNeural"),
   ("tr", "tr-TR-EmelNeural"),
   ("nl", "nl-NL-ColetteNeural"),
   ("pl", "pl-PL-AgnieszkaNeural"),
   ("sv", "sv-SE-SofieNeural"),
   ("fi", "fi-FI-NooraNeural"),
   ("id", "id-ID-GadisNeural"),
   ("vi", "vi-VN-HoaiMyNeural"),
   ("th", "th-TH-PremwadeeNeural")]

/-- `LANGUAGE_NAMES.get(code, code.upper())` (src/app.py lines 125-126). -/
def displayName (code : String) : String :=
  (dictLookup LANGUAGE_NAMES code).getD (pyUpper code)

/-- `VOICE_MAP.get(target_lang, "en-US-AriaNeural")` (src/app.py line 139). -/
def voiceFor (code : String) : String :=
  (dictLookup VOICE_MAP code).getD "en-US-AriaNeural"

/-- The two single-slot artifact paths: `record_videos/record.wav`
(`inputFile`) and `speaking_video/output.mp3` (`outputFile`).
`some bytes` means the file exists with those contents. -/
structure Storage where
  inputFile : Option String
  outputFile : Option String
deriving DecidableEq

/-- The opaque external engines, as pure oracles.  `transcribe bytes` is
`model.transcribe` on the saved upload; `translate s t x` is
`GoogleTranslator(source=s, target=t).translate(x)`; `synthesize x v` is
`edge_tts.Communicate(x, voice=v)` followed by `save`, returning the
audio bytes written to the output slot.  An `Except.error` models the
Python call raising an exception with that message. -/
structure Adapters where
  transcribe : String → TranscribeOut
  translate : String → String → String → Except String String
  synthesize : String → String → Except String String

/-- One multipart-form request to `POST /process_audio`: the optional
`audio` file field and the optional `target_lang` form field
(`request.form.get("target_lang", "en")`). -/
structure Request where
  audio : Option String
  target_lang : Option String
deriving DecidableEq

/-- Body of an HTTP response produced by the app: a JSON `{error}` object,
the JSON success object of `process_audio`, or a binary file with a MIME
type as produced by `send_file`. -/
inductive RespBody where
  | errorBody (msg : String)
  | successBody (detected_lang detected_lang_name : String) (confidence : ℚ)
      (target_lang_name original_text translated_text audio_url : String)
  | fileBody (bytes mimetype : String)
deriving DecidableEq

/-- An HTTP response: status code plus body. -/
structure Response where
  status : Nat
  body : RespBody
deriving DecidableEq

/-- The `translated_text` field of a response body, when present. -/
def RespBody.translatedText : RespBody → Option String
  | .successBody _ _ _ _ _ tt _ => some tt
  | _ => none

/-- The `original_text` field of a response body, when present. -/
def RespBody.originalText : RespBody → Option String
  | .successBody _ _ _ _ ot _ _ => some ot
  | _ => none

/-- One invocation of an external adapter, recorded in order. -/
inductive AdapterCall where
  | transcribeCall (input : String)
  | translateCall (source target text : String)
  | synthesizeCall (text voice : String)
deriving DecidableEq

/-- Whether a trace entry is a Translation Adapter invocation. -/
def AdapterCall.isTranslate : AdapterCall → Bool
  | .translateCall _ _ _ => true
  | _ => false

/-- Whether a trace entry is a Synthesis Adapter invocation. -/
def AdapterCall.isSynthesize : AdapterCall → Bool
  | .synthesizeCall _ _ => true
  | _ => false

/-- `process_audio` (src/app.py lines 103-162), POST branch, as a function
from the request and current storage to the response, the storage after
the request, and the ordered trace of adapter invocations.

Mirrors the source line by line: reject when the `audio` field is absent;
save the upload to the fixed input slot; transcribe; return 400 when the
stripped text is empty; resolve display names; skip translation when the
detected language equals the target, otherwise translate and on any
exception retry once with `source="auto"`; pick the voice; synthesize to
the fixed output slot; delete the input file; return the JSON result.  An
exception escaping any stage is caught by the outer handler (lines
161-162) and returned as a 500 `{error}` without touching the files. -/
def process_audio (A : Adapters) (req : Request) (st : Storage) :
    Response × Storage × List AdapterCall :=
  match req.audio with
  | none => (⟨400, RespBody.errorBody "No audio file provided."⟩, st, [])
  | some audio_bytes =>
    let target_lang := req.target_lang.getD "en"
    let st1 : Storage := { st with inputFile := some audio_bytes }
    let r := speech_to_text (A.transcribe audio_bytes)
    let text := r.1
    let detected_lang := r.2.1
    let confidence := r.2.2
    let calls1 : List AdapterCall := [AdapterCall.transcribeCall audio_bytes]
    if text = "" then
      (⟨400, RespBody.errorBody "No speech detected. Please speak clearly and try again."⟩,
       st1, calls1)
    else
      let detected_lang_name := displayName detected_lang
      let target_lang_name := displayName target_lang
      let tr : Except String String × List AdapterCall :=
        if detected_lang = target_lang then (Except.ok text, [])
        else
          match A.translate detected_lang target_lang text with
          | Except.ok t => (Except.ok t, [AdapterCall.translateCall detected_lang target_lang text])
          | Except.error _ =>
              (A.translate "auto" target_lang text,
               [AdapterCall.translateCall detected_lang target_lang text,
                AdapterCall.translateCall "auto" target_lang text])
      match tr with
      | (Except.error e, tcalls) =>
          (⟨500, RespBody.errorBody e⟩, st1, calls1 ++ tcalls)
      | (Except.ok translated_text, tcalls) =>
          let selected_voice := voiceFor target_lang
          let scall := AdapterCall.synthesizeCall translated_text selected_voice
          match A.synthesize translated_text selected_voice with
          | Except.error e =>
              (⟨500, RespBody.errorBody e⟩, st1, calls1 ++ tcalls ++ [scall])
          | Except.ok audio_out =>
              (⟨200, RespBody.successBody detected_lang detected_lang_name confidence
                       target_lang_name text translated_text "/get_audio"⟩,
               { inputFile := none, outputFile := some audio_out },
               calls1 ++ tcalls ++ [scall])

/-- `get_audio` (src/app.py lines 165-181), GET branch: 404 when the
output slot is empty; otherwise serve the file as `audio/mpeg` and, once
it has been fully delivered (`call_on_close`), delete it — modelled as the
post-state of the operation. -/
def get_audio (st : Storage) : Response × Storage :=
  match st.outputFile with
  | none => (⟨404, RespBody.errorBody "Audio not found."⟩, st)
  | some b => (⟨200, RespBody.fileBody b "audio/mpeg"⟩, { st with outputFile := none })

/-- Round half to even of a rational, stated abstractly with `Int.floor`
and `Int.fract`; the specification-side counterpart of
`roundHalfEvenFrac`. -/
def roundHalfEvenRat (x : ℚ) : ℤ :=
  if Int.fract x < 1/2 then ⌊x⌋
  else if 1/2 < Int.fract x then ⌊x⌋ + 1
  else if ⌊x⌋ % 2 = 0 then ⌊x⌋ else ⌊x⌋ + 1

/-- Modelled from the spec: "probability (0–1, surfaced to callers scaled
to 0–100, rounded to one decimal)" — scale by 100, round to one decimal
place over `ℚ`. -/
def specConfidence (p : ℚ) : ℚ := (roundHalfEvenRat (p * 100 * 10) : ℚ) / 10

/-- Modelled from the spec: "Concatenates all recognized segments into
one string with separating whitespace, trims it". -/
def specTranscript (segments : List String) : String := pyStrip (pyJoin " " segments)

/-- Concrete test double: the recognizer hears silence (no segments), so
the stripped transcript is empty; the downstream engines are never
reached. -/
def noSpeechAdapters : Adapters :=
  { transcribe := fun _ => ⟨[], "en", 1⟩
  , translate := fun _ _ _ => Except.error "translator not reached"
  , synthesize := fun _ _ => Except.error "synthesizer not reached" }

/-- Concrete test double: the recognizer hears English speech and both
engines succeed. -/
def englishAdapters : Adapters :=
  { transcribe := fun _ => ⟨["hello"], "en", 1⟩
  , translate := fun _ _ _ => Except.ok "translated"
  , synthesize := fun _ _ => Except.ok "mp3-bytes" }

/-- Concrete test double: the recognizer hears French speech; the
translation engine fails with a network error — a failure that has
nothing to do with the source-language code — unless called with
`source="auto"`; synthesis succeeds. -/
def flakyNetAdapters : Adapters :=
  { transcribe := fun _ => ⟨["hello"], "fr", 1⟩
  , translate := fun s _ _ =>
      if s = "auto" then Except.ok "hello-en" else Except.error "Network unreachable"
  , synthesize := fun _ _ => Except.ok "mp3-bytes" }

/-- A concrete language probability 0.987, written in reduced form so its
numerator and denominator are kernel-transparent. -/
def whisperProb : ℚ := ⟨987, 1000, by norm_num, by norm_num⟩

/-- A concrete recognizer output used to instantiate the transcription
claims. -/
def whisperSample : TranscribeOut := ⟨[" Hello", "how are you "], "en", whisperProb⟩


/-! ## Helper lemmas: outcome characterizations of the pipeline -/

/-- Requests with no `audio` form field are rejected before anything runs
(src/app.py lines 109-110). -/
theorem process_audio_no_audio (A : Adapters) (tl : Option String) (st : Storage) :
    process_audio A ⟨none, tl⟩ st =
      (⟨400, RespBody.errorBody "No audio file provided."⟩, st, []) := rfl

/-- Outcome when the stripped transcript is empty (src/app.py lines
122-123): a 400 response, the upload still sitting in the input slot, and
only the recognizer having run. -/
theorem process_audio_no_speech (A : Adapters) (audio : String) (tl : Option String)
    (st : Storage) (htext : (speech_to_text (A.transcribe audio)).1 = "") :
    process_audio A ⟨some audio, tl⟩ st =
      (⟨400, RespBody.errorBody "No speech detected. Please speak clearly and try again."⟩,
       { st with inputFile := some audio },
       [AdapterCall.transcribeCall audio]) := by
  simp only [process_audio, htext, if_pos]

/-- Outcome when the detected language equals the target (src/app.py
lines 128-130): translation is skipped and the result depends only on the
synthesis call. -/
theorem process_audio_same_lang (A : Adapters) (audio : String) (tl : Option String)
    (st : Storage)
    (htext : (speech_to_text (A.transcribe audio)).1 ≠ "")
    (hlang : (speech_to_text (A.transcribe audio)).2.1 = tl.getD "en") :
    process_audio A ⟨some audio, tl⟩ st =
      (match A.synthesize (speech_to_text (A.transcribe audio)).1 (voiceFor (tl.getD "en")) with
       | Except.error e =>
          (⟨500, RespBody.errorBody e⟩, { st with inputFile := some audio },
           [AdapterCall.transcribeCall audio,
            AdapterCall.synthesizeCall (speech_to_text (A.transcribe audio)).1
              (voiceFor (tl.getD "en"))])
       | Except.ok out =>
          (⟨200, RespBody.successBody (tl.getD "en") (displayName (tl.getD "en"))
                   (speech_to_text (A.transcribe audio)).2.2
                   (displayName (tl.getD "en"))
                   (speech_to_text (A.transcribe audio)).1
                   (speech_to_text (A.transcribe audio)).1 "/get_audio"⟩,
           ⟨none, some out⟩,
           [AdapterCall.transcribeCall audio,
            AdapterCall.synthesizeCall (speech_to_text (A.transcribe audio)).1
              (voiceFor (tl.getD "en"))])) := by
  cases hsynth : A.synthesize (speech_to_text (A.transcribe audio)).1 (voiceFor (tl.getD "en")) with
  | error e =>
      simp only [process_audio, if_neg htext, hlang, if_pos, hsynth, List.append_nil,
        List.singleton_append, List.nil_append]
  | ok out =>
      simp only [process_audio, if_neg htext, hlang, if_pos, hsynth, List.append_nil,
        List.singleton_append, List.nil_append]

/-- Outcome when the languages differ and the first translation call
succeeds (src/app.py line 133): exactly one translate invocation, then
synthesis decides the rest. -/
theorem process_audio_translates (A : Adapters) (audio : String) (tl : Option String)
    (st : Storage) (t : String)
    (htext : (speech_to_text (A.transcribe audio)).1 ≠ "")
    (hlang : (speech_to_text (A.transcribe audio)).2.1 ≠ tl.getD "en")
    (htr : A.translate (speech_to_text (A.transcribe audio)).2.1 (tl.getD "en")
        (speech_to_text (A.transcribe audio)).1 = Except.ok t) :
    process_audio A ⟨some audio, tl⟩ st =
      (match A.synthesize t (voiceFor (tl.getD "en")) with
       | Except.error e =>
          (⟨500, RespBody.errorBody e⟩, { st with inputFile := some audio },
           [AdapterCall.transcribeCall audio,
            AdapterCall.translateCall (speech_to_text (A.transcribe audio)).2.1 (tl.getD "en")
              (speech_to_text (A.transcribe audio)).1,
            AdapterCall.synthesizeCall t (voiceFor (tl.getD "en"))])
       | Except.ok out =>
          (⟨200, RespBody.successBody (speech_to_text (A.transcribe audio)).2.1
                   (displayName (speech_to_text (A.transcribe audio)).2.1)
                   (speech_to_text (A.transcribe audio)).2.2
                   (displayName (tl.getD "en"))
                   (speech_to_text (A.transcribe audio)).1 t "/get_audio"⟩,
           ⟨none, some out⟩,
           [AdapterCall.transcribeCall audio,
            AdapterCall.translateCall (speech_to_text (A.transcribe audio)).2.1 (tl.getD "en")
              (speech_to_text (A.transcribe audio)).1,
            AdapterCall.synthesizeCall t (voiceFor (tl.getD "en"))])) := by
  cases hsynth : A.synthesize t (voiceFor (tl.getD "en")) with
  | error e =>
      simp only [process_audio, if_neg htext, if_neg hlang, htr, hsynth, List.append_nil,
        List.singleton_append, List.nil_append, List.cons_append]
  | ok out =>
      simp only [process_audio, if_neg htext, if_neg hlang, htr, hsynth, List.append_nil,
        List.singleton_append, List.nil_append, List.cons_append]

/-- Outcome when the languages differ and the first translation call
raises (src/app.py lines 134-136): exactly one retry with
`source="auto"`, whose result (and then synthesis) decides the rest. -/
theorem process_audio_fallback (A : Adapters) (audio : String) (tl : Option String)
    (st : Storage) (e : String)
    (htext : (speech_to_text (A.transcribe audio)).1 ≠ "")
    (hlang : (speech_to_text (A.transcribe audio)).2.1 ≠ tl.getD "en")
    (htr : A.translate (speech_to_text (A.transcribe audio)).2.1 (tl.getD "en")
        (speech_to_text (A.transcribe audio)).1 = Except.error e) :
    process_audio A ⟨some audio, tl⟩ st =
      (match A.translate "auto" (tl.getD "en") (speech_to_text (A.transcribe audio)).1 with
       | Except.error e2 =>
          (⟨500, RespBody.errorBody e2⟩, { st with inputFile := some audio },
           [AdapterCall.transcribeCall audio,
            AdapterCall.translateCall (speech_to_text (A.transcribe audio)).2.1 (tl.getD "en")
              (speech_to_text (A.transcribe audio)).1,
            AdapterCall.translateCall "auto" (tl.getD "en")
              (speech_to_text (A.transcribe audio)).1])
       | Except.ok t =>
          (match A.synthesize t (voiceFor (tl.getD "en")) with
           | Except.error e3 =>
              (⟨500, RespBody.errorBody e3⟩, { st with inputFile := some audio },
               [AdapterCall.transcribeCall audio,
                AdapterCall.translateCall (speech_to_text (A.transcribe audio)).2.1 (tl.getD "en")
                  (speech_to_text (A.transcribe audio)).1,
                AdapterCall.translateCall "auto" (tl.getD "en")
                  (speech_to_text (A.transcribe audio)).1,
                AdapterCall.synthesizeCall t (voiceFor (tl.getD "en"))])
           | Except.ok out =>
              (⟨200, RespBody.successBody (speech_to_text (A.transcribe audio)).2.1
                       (displayName (speech_to_text (A.transcribe audio)).2.1)
                       (speech_to_text (A.transcribe audio)).2.2
                       (displayName (tl.getD "en"))
                       (speech_to_text (A.transcribe audio)).1 t "/get_audio"⟩,
               ⟨none, some out⟩,
               [AdapterCall.transcribeCall audio,
                AdapterCall.translateCall (speech_to_text (A.transcribe audio)).2.1 (tl.getD "en")
                  (speech_to_text (A.transcribe audio)).1,
                AdapterCall.translateCall "auto" (tl.getD "en")
                  (speech_to_text (A.transcribe audio)).1,
                AdapterCall.synthesizeCall t (voiceFor (tl.getD "en"))]))) := by
  cases hauto : A.translate "auto" (tl.getD "en") (speech_to_text (A.transcribe audio)).1 with
  | error e2 =>
      simp only [process_audio, if_neg htext, if_neg hlang, htr, hauto, List.append_nil,
        List.singleton_append, List.nil_append, List.cons_append]
  | ok t =>
      cases hsynth : A.synthesize t (voiceFor (tl.getD "en")) with
      | error e3 =>
          simp only [process_audio, if_neg htext, if_neg hlang, htr, hauto, hsynth,
            List.append_nil, List.singleton_append, List.nil_append, List.cons_append]
      | ok out =>
          simp only [process_audio, if_neg htext, if_neg hlang, htr, hauto, hsynth,
            List.append_nil, List.singleton_append, List.nil_append, List.cons_append]

/-- Once a non-empty transcript exists, the request ends either in a 200
with the input slot cleared and the output slot filled, or in a 500 with
the input slot still holding the upload and the output slot untouched. -/
theorem process_audio_nonempty_outcome (A : Adapters) (audio : String) (tl : Option String)
    (st : Storage) (htext : (speech_to_text (A.transcribe audio)).1 ≠ "") :
    (∃ out, (process_audio A ⟨some audio, tl⟩ st).1.status = 200 ∧
        (process_audio A ⟨some audio, tl⟩ st).2.1 = ⟨none, some out⟩) ∨
    ((process_audio A ⟨some audio, tl⟩ st).1.status = 500 ∧
        (process_audio A ⟨some audio, tl⟩ st).2.1 = { st with inputFile := some audio }) := by
  by_cases hlang : (speech_to_text (A.transcribe audio)).2.1 = tl.getD "en"
  · rw [process_audio_same_lang A audio tl st htext hlang]
    cases hsynth : A.synthesize (speech_to_text (A.transcribe audio)).1 (voiceFor (tl.getD "en")) with
    | error e => exact Or.inr ⟨rfl, rfl⟩
    | ok out => exact Or.inl ⟨out, rfl, rfl⟩
  · cases htr : A.translate (speech_to_text (A.transcribe audio)).2.1 (tl.getD "en")
        (speech_to_text (A.transcribe audio)).1 with
    | ok t =>
        rw [process_audio_translates A audio tl st t htext hlang htr]
        cases hsynth : A.synthesize t (voiceFor (tl.getD "en")) with
        | error e => exact Or.inr ⟨rfl, rfl⟩
        | ok out => exact Or.inl ⟨out, rfl, rfl⟩
    | error e =>
        rw [process_audio_fallback A audio tl st e htext hlang htr]
        cases hauto : A.translate "auto" (tl.getD "en") (speech_to_text (A.transcribe audio)).1 with
        | error e2 => exact Or.inr ⟨rfl, rfl⟩
        | ok t =>
            cases hsynth : A.synthesize t (voiceFor (tl.getD "en")) with
            | error e3 => exact Or.inr ⟨by simp only [hsynth], by simp only [hsynth]⟩
            | ok out => exact Or.inl ⟨out, by simp only [hsynth], by simp only [hsynth]⟩

/-! ## Helper lemmas: rounding and catalog lookups -/

/-- The integer-arithmetic banker's rounding of `n / d` agrees with the
floor-and-fract formulation over `ℚ`. -/
theorem roundHalfEvenFrac_eq_rat (n : ℤ) (d : ℕ) (hd : 0 < d) :
    roundHalfEvenFrac n (d : ℤ) = roundHalfEvenRat ((n : ℚ) / (d : ℚ)) := by
  have hd0 : (0:ℚ) < (d:ℚ) := by exact_mod_cast hd
  have hfract : Int.fract ((n:ℚ)/(d:ℚ)) = ((n % (d:ℤ) : ℤ) : ℚ) / (d:ℚ) := by
    rw [Int.fract, Rat.floor_intCast_div_natCast]
    push_cast [Int.emod_def]
    field_simp
  have h1 : Int.fract ((n:ℚ)/(d:ℚ)) < 1/2 ↔ 2 * (n % (d:ℤ)) < (d:ℤ) := by
    rw [hfract, div_lt_div_iff₀ hd0 (by norm_num : (0:ℚ) < 2)]
    norm_cast
    constructor <;> intro h <;> omega
  have h2 : (1:ℚ)/2 < Int.fract ((n:ℚ)/(d:ℚ)) ↔ (d:ℤ) < 2 * (n % (d:ℤ)) := by
    rw [hfract, div_lt_div_iff₀ (by norm_num : (0:ℚ) < 2) hd0]
    norm_cast
    constructor <;> intro h <;> omega
  have hmod : n - n / (d:ℤ) * (d:ℤ) = n % (d:ℤ) := by rw [Int.emod_def]; ring
  simp only [roundHalfEvenFrac, roundHalfEvenRat, Rat.floor_intCast_div_natCast, h1, h2, hmod]

/-- `pyRound1` is exactly "round to one decimal place, ties to even". -/
theorem pyRound1_eq_spec (x : ℚ) : pyRound1 x = (roundHalfEvenRat (x * 10) : ℚ) / 10 := by
  unfold pyRound1
  congr 2
  rw [roundHalfEvenFrac_eq_rat (x.num * 10) x.den x.den_pos]
  congr 1
  push_cast
  rw [mul_div_right_comm, Rat.num_div_den]

/-- Banker's rounding of a nonnegative rational is nonnegative. -/
theorem roundHalfEvenRat_nonneg (x : ℚ) (hx : 0 ≤ x) : 0 ≤ roundHalfEvenRat x := by
  have h0 : 0 ≤ ⌊x⌋ := Int.floor_nonneg.mpr hx
  unfold roundHalfEvenRat
  split_ifs <;> omega

/-- Banker's rounding never exceeds an integer upper bound of its input. -/
theorem roundHalfEvenRat_le_of_le (x : ℚ) (m : ℤ) (hx : x ≤ m) : roundHalfEvenRat x ≤ m := by
  have hf : ⌊x⌋ ≤ m := by
    have := Int.floor_le_floor hx
    rwa [Int.floor_intCast] at this
  by_cases hfm : ⌊x⌋ = m
  · have hx' : x ≤ (⌊x⌋:ℚ) := by rw [hfm]; exact_mod_cast hx
    have hfr : Int.fract x < 1/2 := by
      have : Int.fract x ≤ 0 := by rw [Int.fract]; linarith
      linarith
    unfold roundHalfEvenRat
    rw [if_pos hfr]
    omega
  · unfold roundHalfEvenRat
    split_ifs <;> omega

/-- A `dictLookup` hits exactly when the key occurs among the table's
keys. -/
theorem dictLookup_isSome_iff (l : List (String × String)) (key : String) :
    (dictLookup l key).isSome = true ↔ key ∈ l.map Prod.fst := by
  induction l with
  | nil => simp [dictLookup]
  | cons p rest ih =>
    obtain ⟨k, v⟩ := p
    by_cases h : k = key
    · subst h
      simp [dictLookup]
    · simp only [dictLookup, if_neg h, List.map_cons, List.mem_cons, ih]
      constructor
      · intro hmem
        exact Or.inr hmem
      · rintro (rfl | hmem)
        · exact absurd rfl h
        · exact hmem

/-! ## Claims -/

/-- C1, counterexample: a no-speech request (transcript empty) fails with
400 yet leaves the persisted upload in the input slot, refuting "the
input audio artifact no longer exists in storage after the request
completes, regardless of outcome". -/
theorem input_artifact_leaks_on_no_speech_failure :
    (process_audio noSpeechAdapters ⟨some "clip", some "en"⟩ ⟨none, none⟩).1.status = 400 ∧
    (process_audio noSpeechAdapters ⟨some "clip", some "en"⟩ ⟨none, none⟩).2.1.inputFile =
      some "clip" :=
  ⟨by decide, by decide⟩

/-- C1, amended: for every request in which the upload was persisted, the
input artifact is deleted exactly on the success path (status 200); on
every failure outcome (no-speech 400, translation 500, synthesis 500) it
remains in storage. -/
theorem input_artifact_deleted_iff_success (A : Adapters) (audio : String) (tl : Option String)
    (st : Storage) :
    ((process_audio A ⟨some audio, tl⟩ st).1.status = 200 →
      (process_audio A ⟨some audio, tl⟩ st).2.1.inputFile = none) ∧
    ((process_audio A ⟨some audio, tl⟩ st).1.status ≠ 200 →
      (process_audio A ⟨some audio, tl⟩ st).2.1.inputFile = some audio) := by
  by_cases htext : (speech_to_text (A.transcribe audio)).1 = ""
  · rw [process_audio_no_speech A audio tl st htext]
    exact ⟨fun h => by simp at h, fun _ => rfl⟩
  · rcases process_audio_nonempty_outcome A audio tl st htext with ⟨out, h200, hst⟩ | ⟨h500, hst⟩
    · rw [hst]
      exact ⟨fun _ => rfl, fun h => absurd h200 h⟩
    · rw [hst, h500]
      exact ⟨fun h => by simp at h, fun _ => rfl⟩

/-- C1, witness: on a successful request the input slot is cleared; on a
no-speech failure the upload remains. -/
theorem input_artifact_deleted_iff_success_witness :
    ((process_audio englishAdapters ⟨some "clip", some "en"⟩ ⟨none, none⟩).1.status = 200) ∧
    ((process_audio englishAdapters ⟨some "clip", some "en"⟩ ⟨none, none⟩).2.1.inputFile = none) ∧
    ((process_audio noSpeechAdapters ⟨some "silence", some "en"⟩ ⟨none, none⟩).1.status ≠ 200) ∧
    ((process_audio noSpeechAdapters ⟨some "silence", some "en"⟩ ⟨none, none⟩).2.1.inputFile =
      some "silence") :=
  ⟨by decide,
   (input_artifact_deleted_iff_success englishAdapters "clip" (some "en") ⟨none, none⟩).1 (by decide),
   by decide,
   (input_artifact_deleted_iff_success noSpeechAdapters "silence" (some "en") ⟨none, none⟩).2 (by decide)⟩

/-- C2: when the detected language equals the requested target, the
Translation Adapter is never invoked (no translate call in the trace),
the response's `translated_text` always equals its `original_text`, and
on success it is exactly the transcript. -/
theorem same_language_skips_translation (A : Adapters) (audio : String) (tl : Option String)
    (st : Storage)
    (htext : (speech_to_text (A.transcribe audio)).1 ≠ "")
    (hlang : (speech_to_text (A.transcribe audio)).2.1 = tl.getD "en") :
    ((process_audio A ⟨some audio, tl⟩ st).2.2.filter AdapterCall.isTranslate = []) ∧
    ((process_audio A ⟨some audio, tl⟩ st).1.body.translatedText =
      (process_audio A ⟨some audio, tl⟩ st).1.body.originalText) ∧
    ((process_audio A ⟨some audio, tl⟩ st).1.status = 200 →
      (process_audio A ⟨some audio, tl⟩ st).1.body.translatedText =
        some (speech_to_text (A.transcribe audio)).1) := by
  rw [process_audio_same_lang A audio tl st htext hlang]
  cases hsynth : A.synthesize (speech_to_text (A.transcribe audio)).1 (voiceFor (tl.getD "en")) with
  | error e =>
      refine ⟨by simp [AdapterCall.isTranslate], rfl, ?_⟩
      intro h
      simp at h
  | ok out =>
      exact ⟨by simp [AdapterCall.isTranslate], rfl, fun _ => rfl⟩

/-- C2, witness: English speech with target `"en"` is returned verbatim
with no translate call in the trace. -/
theorem same_language_skips_translation_witness :
    ((process_audio englishAdapters ⟨some "clip", some "en"⟩ ⟨none, none⟩).2.2.filter
        AdapterCall.isTranslate = []) ∧
    ((process_audio englishAdapters ⟨some "clip", some "en"⟩ ⟨none, none⟩).1.body.translatedText =
      (process_audio englishAdapters ⟨some "clip", some "en"⟩ ⟨none, none⟩).1.body.originalText) ∧
    ((process_audio englishAdapters ⟨some "clip", some "en"⟩ ⟨none, none⟩).1.body.translatedText =
      some "hello") :=
  ⟨(same_language_skips_translation englishAdapters "clip" (some "en") ⟨none, none⟩
      (by decide) (by decide)).1,
   (same_language_skips_translation englishAdapters "clip" (some "en") ⟨none, none⟩
      (by decide) (by decide)).2.1,
   (same_language_skips_translation englishAdapters "clip" (some "en") ⟨none, none⟩
      (by decide) (by decide)).2.2 (by decide)⟩

/-- C3, counterexample: a first-translation failure whose message
("Network unreachable") has nothing to do with an unrecognized
source-language code still triggers the `source="auto"` retry, and the
failure does not propagate (the request succeeds), refuting "this
fallback fires only for failures attributable to an unrecognized
source-language code, and any other translation failure propagates
unchanged without a retry". -/
theorem fallback_fires_for_non_source_code_failure :
    ((process_audio flakyNetAdapters ⟨some "clip", some "en"⟩ ⟨none, none⟩).2.2.filter
        AdapterCall.isTranslate =
      [AdapterCall.translateCall "fr" "en" "hello",
       AdapterCall.translateCall "auto" "en" "hello"]) ∧
    (process_audio flakyNetAdapters ⟨some "clip", some "en"⟩ ⟨none, none⟩).1.status = 200 ∧
    (process_audio flakyNetAdapters ⟨some "clip", some "en"⟩ ⟨none, none⟩).1.body.translatedText =
      some "hello-en" :=
  ⟨by decide, by decide, by decide⟩

/-- C3, amended: whenever the translation call with the detected source
code fails — for any reason — the Translation Adapter is retried exactly
once with `source="auto"` (the trace holds exactly these two translate
calls, in order); if the retry also fails its error is surfaced as the
500 error, and if it succeeds its result becomes `translated_text`. -/
theorem translate_failure_retries_auto_once (A : Adapters) (audio : String) (tl : Option String)
    (st : Storage) (e : String)
    (htext : (speech_to_text (A.transcribe audio)).1 ≠ "")
    (hlang : (speech_to_text (A.transcribe audio)).2.1 ≠ tl.getD "en")
    (htr : A.translate (speech_to_text (A.transcribe audio)).2.1 (tl.getD "en")
        (speech_to_text (A.transcribe audio)).1 = Except.error e) :
    ((process_audio A ⟨some audio, tl⟩ st).2.2.filter AdapterCall.isTranslate =
      [AdapterCall.translateCall (speech_to_text (A.transcribe audio)).2.1 (tl.getD "en")
         (speech_to_text (A.transcribe audio)).1,
       AdapterCall.translateCall "auto" (tl.getD "en")
         (speech_to_text (A.transcribe audio)).1]) ∧
    (∀ e2, A.translate "auto" (tl.getD "en") (speech_to_text (A.transcribe audio)).1 =
        Except.error e2 →
      (process_audio A ⟨some audio, tl⟩ st).1 = ⟨500, RespBody.errorBody e2⟩ ∧
      (process_audio A ⟨some audio, tl⟩ st).2.1 = { st with inputFile := some audio }) ∧
    (∀ t out, A.translate "auto" (tl.getD "en") (speech_to_text (A.transcribe audio)).1 =
        Except.ok t →
      A.synthesize t (voiceFor (tl.getD "en")) = Except.ok out →
      (process_audio A ⟨some audio, tl⟩ st).1.status = 200 ∧
      (process_audio A ⟨some audio, tl⟩ st).1.body.translatedText = some t) := by
  rw [process_audio_fallback A audio tl st e htext hlang htr]
  cases hauto : A.translate "auto" (tl.getD "en") (speech_to_text (A.transcribe audio)).1 with
  | error e2 =>
      refine ⟨by simp [AdapterCall.isTranslate], ?_, ?_⟩
      · intro e3 he3
        injection he3 with he3'
        subst he3'
        exact ⟨rfl, rfl⟩
      · intro t out ht hs
        exact Except.noConfusion ht
  | ok t =>
      cases hsynth : A.synthesize t (voiceFor (tl.getD "en")) with
      | error e3 =>
          refine ⟨by simp only []; simp [hsynth, AdapterCall.isTranslate], ?_, ?_⟩
          · intro e4 he4
            exact Except.noConfusion he4
          · intro t' out ht hs
            injection ht with ht'
            subst ht'
            rw [hsynth] at hs
            exact Except.noConfusion hs
      | ok out =>
          refine ⟨by simp only []; simp [hsynth, AdapterCall.isTranslate], ?_, ?_⟩
          · intro e4 he4
            exact Except.noConfusion he4
          · intro t' out' ht hs
            injection ht with ht'
            subst ht'
            exact ⟨by simp only [hsynth], by simp only [hsynth, RespBody.translatedText]⟩

/-- C3, witness: with the flaky network translator the trace shows
exactly the two translate calls and the retry's result is returned. -/
theorem translate_failure_retries_auto_once_witness :
    (flakyNetAdapters.translate "fr" "en" "hello" = Except.error "Network unreachable") ∧
    ((process_audio flakyNetAdapters ⟨some "clip", some "en"⟩ ⟨none, none⟩).2.2.filter
        AdapterCall.isTranslate =
      [AdapterCall.translateCall "fr" "en" "hello",
       AdapterCall.translateCall "auto" "en" "hello"]) ∧
    ((process_audio flakyNetAdapters ⟨some "clip", some "en"⟩ ⟨none, none⟩).1.status = 200 ∧
     (process_audio flakyNetAdapters ⟨some "clip", some "en"⟩ ⟨none, none⟩).1.body.translatedText =
       some "hello-en") :=
  ⟨by decide,
   (translate_failure_retries_auto_once flakyNetAdapters "clip" (some "en") ⟨none, none⟩
      "Network unreachable" (by decide) (by decide) (by decide)).1,
   (translate_failure_retries_auto_once flakyNetAdapters "clip" (some "en") ⟨none, none⟩
      "Network unreachable" (by decide) (by decide) (by decide)).2.2 "hello-en" "mp3-bytes"
      (by decide) (by decide)⟩

/-- C4: when the stripped transcript is empty, the request fails with the
400 no-speech error and the trace contains only the transcription call —
neither the Translation Adapter nor the Synthesis Adapter runs. -/
theorem no_speech_rejects_before_translation (A : Adapters) (audio : String) (tl : Option String)
    (st : Storage) (htext : (speech_to_text (A.transcribe audio)).1 = "") :
    process_audio A ⟨some audio, tl⟩ st =
      (⟨400, RespBody.errorBody "No speech detected. Please speak clearly and try again."⟩,
       { st with inputFile := some audio }, [AdapterCall.transcribeCall audio]) ∧
    (∀ c ∈ (process_audio A ⟨some audio, tl⟩ st).2.2,
      c.isTranslate = false ∧ c.isSynthesize = false) := by
  have h := process_audio_no_speech A audio tl st htext
  refine ⟨h, ?_⟩
  rw [h]
  intro c hc
  simp only [List.mem_singleton] at hc
  subst hc
  exact ⟨rfl, rfl⟩

/-- C4, witness: silence yields the 400 no-speech response and a
trace holding only the transcription call. -/
theorem no_speech_rejects_before_translation_witness :
    ((speech_to_text (noSpeechAdapters.transcribe "silence")).1 = "") ∧
    (process_audio noSpeechAdapters ⟨some "silence", some "hi"⟩ ⟨none, none⟩ =
      (⟨400, RespBody.errorBody "No speech detected. Please speak clearly and try again."⟩,
       ⟨some "silence", none⟩, [AdapterCall.transcribeCall "silence"])) :=
  ⟨by decide,
   (no_speech_rejects_before_translation noSpeechAdapters "silence" (some "hi") ⟨none, none⟩
      (by decide)).1⟩

/-- C5: `GET /get_audio` returns 404 with the JSON error exactly when the
output slot is empty (leaving storage unchanged); otherwise it returns
the artifact with MIME type `audio/mpeg`, clears the slot, and an
immediately repeated call returns 404. -/
theorem get_audio_contract (st : Storage) :
    ((get_audio st).1.status = 404 ↔ st.outputFile = none) ∧
    (st.outputFile = none →
      get_audio st = (⟨404, RespBody.errorBody "Audio not found."⟩, st)) ∧
    (∀ b, st.outputFile = some b →
      (get_audio st).1 = ⟨200, RespBody.fileBody b "audio/mpeg"⟩ ∧
      (get_audio st).2.outputFile = none ∧
      (get_audio (get_audio st).2).1 = ⟨404, RespBody.errorBody "Audio not found."⟩) := by
  obtain ⟨inp, outp⟩ := st
  cases outp with
  | none => simp [get_audio]
  | some b => simp [get_audio]

/-- C5, witness: fetching a present artifact serves it as `audio/mpeg`
and a second fetch 404s; fetching with an empty slot 404s. -/
theorem get_audio_contract_witness :
    ((get_audio ⟨none, some "mp3-bytes"⟩).1 = ⟨200, RespBody.fileBody "mp3-bytes" "audio/mpeg"⟩ ∧
     (get_audio ⟨none, some "mp3-bytes"⟩).2.outputFile = none ∧
     (get_audio (get_audio ⟨none, some "mp3-bytes"⟩).2).1 =
       ⟨404, RespBody.errorBody "Audio not found."⟩) ∧
    (get_audio ⟨none, none⟩ = (⟨404, RespBody.errorBody "Audio not found."⟩, ⟨none, none⟩)) :=
  ⟨(get_audio_contract ⟨none, some "mp3-bytes"⟩).2.2 "mp3-bytes" rfl,
   (get_audio_contract ⟨none, none⟩).2.1 rfl⟩

/-- C6: a request with no `audio` form field is rejected with the 400
"No audio file provided." error, with storage unchanged (nothing
persisted) and an empty adapter trace (no adapter invoked). -/
theorem missing_audio_field_rejected (A : Adapters) (tl : Option String) (st : Storage) :
    process_audio A ⟨none, tl⟩ st =
      (⟨400, RespBody.errorBody "No audio file provided."⟩, st, []) := rfl

/-- C7: the display-name lookup returns the mapped name for codes in
`LANGUAGE_NAMES` and the uppercased code otherwise; the voice lookup
returns the mapped voice for codes in `VOICE_MAP` and the fixed fallback
`en-US-AriaNeural` otherwise. -/
theorem language_catalog_defaults (code : String) :
    (∀ name, dictLookup LANGUAGE_NAMES code = some name → displayName code = name) ∧
    (dictLookup LANGUAGE_NAMES code = none → displayName code = pyUpper code) ∧
    (∀ v, dictLookup VOICE_MAP code = some v → voiceFor code = v) ∧
    (dictLookup VOICE_MAP code = none → voiceFor code = "en-US-AriaNeural") := by
  refine ⟨?_, ?_, ?_, ?_⟩
  · intro name h; unfold displayName; rw [h]; rfl
  · intro h; unfold displayName; rw [h]; rfl
  · intro v h; unfold voiceFor; rw [h]; rfl
  · intro h; unfold voiceFor; rw [h]; rfl

/-- C7, witness: a mapped code ("hi") resolves to its table entries and
an unmapped code ("xx") falls back to the uppercased code and default
voice. -/
theorem language_catalog_defaults_witness :
    (displayName "hi" = "Hindi") ∧ (voiceFor "hi" = "hi-IN-SwaraNeural") ∧
    (displayName "xx" = pyUpper "xx") ∧ (voiceFor "xx" = "en-US-AriaNeural") :=
  ⟨(language_catalog_defaults "hi").1 "Hindi" (by decide),
   (language_catalog_defaults "hi").2.2.1 "hi-IN-SwaraNeural" (by decide),
   (language_catalog_defaults "xx").2.1 (by decide),
   (language_catalog_defaults "xx").2.2.2 (by decide)⟩

/-- C8: the transcription's confidence is the language probability scaled
by 100 and rounded to one decimal place (and lies in `[0, 100]` for a
probability in `[0, 1]`), and the returned text is the segments joined by
single spaces and trimmed; the detected language is passed through. -/
theorem transcription_confidence_and_text (o : TranscribeOut)
    (h0 : 0 ≤ o.language_probability) (h1 : o.language_probability ≤ 1) :
    (speech_to_text o).1 = specTranscript o.segments ∧
    (speech_to_text o).2.1 = o.language ∧
    (speech_to_text o).2.2 = specConfidence o.language_probability ∧
    0 ≤ (speech_to_text o).2.2 ∧ (speech_to_text o).2.2 ≤ 100 := by
  have hconf : (speech_to_text o).2.2 = specConfidence o.language_probability := by
    show pyRound1 (o.language_probability * 100) = specConfidence o.language_probability
    rw [pyRound1_eq_spec]
    rfl
  refine ⟨rfl, rfl, hconf, ?_, ?_⟩
  · rw [hconf]
    unfold specConfidence
    apply div_nonneg _ (by norm_num : (0:ℚ) ≤ 10)
    have hx : (0:ℚ) ≤ o.language_probability * 100 * 10 := by linarith
    exact_mod_cast roundHalfEvenRat_nonneg _ hx
  · rw [hconf]
    unfold specConfidence
    rw [div_le_iff₀ (by norm_num : (0:ℚ) < 10)]
    have hx : o.language_probability * 100 * 10 ≤ ((1000:ℤ):ℚ) := by push_cast; linarith
    have hr := roundHalfEvenRat_le_of_le _ 1000 hx
    have hcast : ((roundHalfEvenRat (o.language_probability * 100 * 10) : ℤ) : ℚ) ≤
        ((1000:ℤ):ℚ) := by
      exact_mod_cast hr
    push_cast at hcast ⊢
    linarith

/-- C8, witness: a probability of 0.987 satisfies the bounds and the
confidence/text equations at a concrete recognizer output. -/
theorem transcription_confidence_and_text_witness :
    (0 ≤ whisperSample.language_probability ∧ whisperSample.language_probability ≤ 1) ∧
    ((speech_to_text whisperSample).1 = specTranscript whisperSample.segments ∧
     (speech_to_text whisperSample).2.1 = whisperSample.language ∧
     (speech_to_text whisperSample).2.2 = specConfidence whisperSample.language_probability ∧
     0 ≤ (speech_to_text whisperSample).2.2 ∧ (speech_to_text whisperSample).2.2 ≤ 100) :=
  ⟨⟨by decide, by decide⟩,
   transcription_confidence_and_text whisperSample (by decide) (by decide)⟩

/-- C9: the two catalog tables list exactly the same language codes, so
for every code the name lookup and the voice lookup hit or miss
together. -/
theorem catalogs_have_same_keys :
    LANGUAGE_NAMES.map Prod.fst = VOICE_MAP.map Prod.fst ∧
    ∀ code : String,
      ((dictLookup LANGUAGE_NAMES code).isSome = true ↔
        (dictLookup VOICE_MAP code).isSome = true) := by
  have hkeys : LANGUAGE_NAMES.map Prod.fst = VOICE_MAP.map Prod.fst := by decide
  refine ⟨hkeys, fun code => ?_⟩
  rw [dictLookup_isSome_iff, dictLookup_isSome_iff, hkeys]

/-- C9, witness: a mapped code ("te") and an unmapped one ("xx") hit or
miss in both tables together. -/
theorem catalogs_have_same_keys_witness :
    ((dictLookup LANGUAGE_NAMES "te").isSome = true ↔
      (dictLookup VOICE_MAP "te").isSome = true) ∧
    ((dictLookup LANGUAGE_NAMES "xx").isSome = true ↔
      (dictLookup VOICE_MAP "xx").isSome = true) :=
  ⟨catalogs_have_same_keys.2 "te", catalogs_have_same_keys.2 "xx"⟩

/-- C10: a request that fails with a 400 (no audio field or no speech)
leaves the output slot exactly as it was, so an artifact from an earlier
successful request is still served by `GET /get_audio` afterwards. -/
theorem failed_400_request_preserves_output (A : Adapters) (req : Request) (st : Storage)
    (h : (process_audio A req st).1.status = 400) :
    (process_audio A req st).2.1.outputFile = st.outputFile ∧
    (∀ b, st.outputFile = some b →
      (get_audio (process_audio A req st).2.1).1 = ⟨200, RespBody.fileBody b "audio/mpeg"⟩) := by
  obtain ⟨a, tl⟩ := req
  cases a with
  | none =>
      rw [process_audio_no_audio]
      exact ⟨rfl, fun b hb => by simp [get_audio, hb]⟩
  | some audio =>
      by_cases htext : (speech_to_text (A.transcribe audio)).1 = ""
      · rw [process_audio_no_speech A audio tl st htext]
        refine ⟨rfl, fun b hb => ?_⟩
        simp [get_audio, hb]
      · rcases process_audio_nonempty_outcome A audio tl st htext with ⟨out, h200, _⟩ | ⟨h500, _⟩
        · rw [h200] at h
          exact absurd h (by decide)
        · rw [h500] at h
          exact absurd h (by decide)

/-- C10, witness: after a no-speech 400 the previously synthesized
artifact is still present and served. -/
theorem failed_400_request_preserves_output_witness :
    ((process_audio noSpeechAdapters ⟨some "silence", some "hi"⟩ ⟨none, some "keep"⟩).1.status =
      400) ∧
    ((process_audio noSpeechAdapters ⟨some "silence", some "hi"⟩
        ⟨none, some "keep"⟩).2.1.outputFile = some "keep") ∧
    ((get_audio (process_audio noSpeechAdapters ⟨some "silence", some "hi"⟩
        ⟨none, some "keep"⟩).2.1).1 = ⟨200, RespBody.fileBody "keep" "audio/mpeg"⟩) :=
  ⟨by decide,
   (failed_400_request_preserves_output noSpeechAdapters ⟨some "silence", some "hi"⟩
      ⟨none, some "keep"⟩ (by decide)).1,
   (failed_400_request_preserves_output noSpeechAdapters ⟨some "silence", some "hi"⟩
      ⟨none, some "keep"⟩ (by decide)).2 "keep" rfl⟩

end VoiceTranslator
